import Mathlib

/-!
Verification development for the two-wheeler sales-intelligence app.

The analytical core (ForecastEngine, RiskScorer, DispatchPlanner,
WhatIfSimulator) lives in the Python backend, which is not part of the
source tree here; only its documentation (README) and its frontend
callers are.  Those components are therefore modelled from the spec,
with exact rational arithmetic standing in for real numbers.  The
frontend components (upload handler, YoY pivot) are embedded directly
from the JSX source.
-/

/-- Clamp a rational to the interval `[0, 1]`.
Modelled from the spec: the `clamp01` helper used by RiskScorer
(backend `services/dispatch_planner.py` is not in the source tree). -/
def clamp01 (x : ℚ) : ℚ := max 0 (min 1 x)

/-- Modelled from the spec: RiskScorer's stockout probability,
`clamp01((forecast_over_lead_time − current_stock) / forecast_over_lead_time)`,
with 0 when the forecast is 0 (backend RiskScorer is not in the source tree). -/
def stockoutProb (forecast stock : ℚ) : ℚ :=
  if forecast = 0 then 0 else clamp01 ((forecast - stock) / forecast)

/-- Modelled from the spec: RiskScorer's overstock probability,
`clamp01((current_stock − forecast_over_lead_time) / max(current_stock, 1))`
(backend RiskScorer is not in the source tree). -/
def overstockProb (forecast stock : ℚ) : ℚ :=
  clamp01 ((stock - forecast) / max stock 1)

/-- Modelled from the spec: the composite risk score
`0.40×(stockout_prob − overstock_prob) + 0.30×stockout_prob
 + 0.20×overstock_prob + 0.10×festival_proximity_risk`
(backend RiskScorer is not in the source tree). -/
def riskScore (sp op festRisk : ℚ) : ℚ :=
  (2/5) * (sp - op) + (3/10) * sp + (1/5) * op + (1/10) * festRisk

/-- The three risk classifications. -/
inductive RiskType
  | understock
  | overstock
  | neutral
deriving DecidableEq, Repr

/-- Modelled from the spec: the classification rule
`stockout_prob > 0.30 → understock; else overstock_prob > 0.35 → overstock;
else neutral`, a function of the raw probabilities only
(backend RiskScorer is not in the source tree). -/
def riskTypeOf (sp op : ℚ) : RiskType :=
  if sp > 3/10 then .understock
  else if op > 7/20 then .overstock
  else .neutral

/-- A risk assessment record: raw probabilities, composite score, class. -/
structure RiskAssessment where
  stockout_prob : ℚ
  overstock_prob : ℚ
  risk_score : ℚ
  risk_type : RiskType
deriving DecidableEq, Repr

namespace RiskScorer

/-- Modelled from the spec: `RiskScorer.score(sku, forecast_over_lead_time,
current_stock)` assembling the RiskAssessment from the probability formulas,
the weighted score, and the threshold classification
(backend `services/dispatch_planner.py` is not in the source tree). -/
def score (forecast stock festRisk : ℚ) : RiskAssessment :=
  let sp := stockoutProb forecast stock
  let op := overstockProb forecast stock
  { stockout_prob := sp
    overstock_prob := op
    risk_score := riskScore sp op festRisk
    risk_type := riskTypeOf sp op }

end RiskScorer

/-- A forecast point of the series returned by `ForecastEngine.forecast`:
target-day offset, horizon fraction, predicted quantity, confidence
bounds and the confidence width used for them. -/
structure ForecastPoint where
  day_offset : ℕ
  horizon_fraction : ℚ
  predicted_quantity : ℚ
  confidence_lower : ℚ
  confidence_upper : ℚ
  ci_width_pct : ℚ
deriving DecidableEq, Repr

/-- Modelled from the spec: the inputs the ForecastEngine draws from the
SeasonalProfileBuilder and the FestivalCalendar for one SKU
(backend `services/forecasting.py` is not in the source tree):
trailing daily average, the calendar month of each day offset, the
per-month seasonal factor, the per-day festival multiplier, and the
fitted year-over-year trend factor. -/
structure ForecastInputs where
  base_daily_avg : ℚ
  month_of : ℕ → ℕ
  seasonal_profile : ℕ → ℚ
  festival_multiplier : ℕ → ℚ
  yoy_trend_factor : ℚ

/-- Modelled from the spec: the confidence width
`ci_width_pct = 0.20 + horizon_fraction × 0.15`
(backend `services/forecasting.py` is not in the source tree). -/
def ciWidthPct (horizon_fraction : ℚ) : ℚ :=
  1/5 + horizon_fraction * (3/20)

/-- Modelled from the spec: `predicted(t) = base_daily_avg × seasonal_factor ×
festival_multiplier × yoy_trend_factor`
(backend `services/forecasting.py` is not in the source tree). -/
def predictedAt (inp : ForecastInputs) (d : ℕ) : ℚ :=
  inp.base_daily_avg * inp.seasonal_profile (inp.month_of d)
    * inp.festival_multiplier d * inp.yoy_trend_factor

namespace ForecastEngine

/-- Modelled from the spec: one ForecastPoint at day offset `d` of the
horizon, with `horizon_fraction = days_from(as_of_date, t) / horizon_days`
and `lower, upper = predicted × (1 ∓ ci_width_pct)`
(backend `services/forecasting.py` is not in the source tree). -/
def forecastPoint (inp : ForecastInputs) (horizon_days d : ℕ) : ForecastPoint :=
  let p := predictedAt inp d
  let hf : ℚ := (d : ℚ) / (horizon_days : ℚ)
  let w := ciWidthPct hf
  { day_offset := d
    horizon_fraction := hf
    predicted_quantity := p
    confidence_lower := p * (1 - w)
    confidence_upper := p * (1 + w)
    ci_width_pct := w }

/-- Modelled from the spec: `forecast(sku, horizon_days, as_of_date)` as the
ordered series of ForecastPoints at day offsets `1 .. horizon_days`
(backend `services/forecasting.py` is not in the source tree). -/
def forecast (inp : ForecastInputs) (horizon_days : ℕ) : List ForecastPoint :=
  (List.range horizon_days).map (fun i => forecastPoint inp horizon_days (i+1))

end ForecastEngine

/-- A flat-demand SKU used to instantiate the forecast theorems:
10 units/day, flat seasonal profile, no festivals, flat trend. -/
def exampleInputs : ForecastInputs :=
  { base_daily_avg := 10
    month_of := fun _ => 1
    seasonal_profile := fun _ => 1
    festival_multiplier := fun _ => 1
    yoy_trend_factor := 1 }

/-- A SKU with no sales history: zero base daily average. -/
def zeroInputs : ForecastInputs :=
  { base_daily_avg := 0
    month_of := fun _ => 1
    seasonal_profile := fun _ => 1
    festival_multiplier := fun _ => 1
    yoy_trend_factor := 1 }

/-- Total predicted units over the horizon (the cumulative-sum helper the
spec requires of the ForecastEngine). -/
def totalForecast (inp : ForecastInputs) (horizon_days : ℕ) : ℚ :=
  ((ForecastEngine.forecast inp horizon_days).map (fun p => p.predicted_quantity)).sum

/-- One dispatch recommendation row, per the spec data model. -/
structure DispatchRecommendation where
  sku_code : String
  forecast_units : ℚ
  current_stock : ℚ
  stock_source : String
  recommended_quantity : ℚ
  buffer_stock : ℚ
  total_dispatch : ℚ
  working_capital_impact : ℚ
deriving DecidableEq, Repr

/-- BUFFER_STOCK_PERCENT, per the README configuration (0.15). -/
def BUFFER_STOCK_PERCENT : ℚ := 15/100

namespace DispatchPlanner

/-- Modelled from the spec: the per-SKU dispatch computation of
`DispatchPlanner.plan` (backend `services/dispatch_planner.py` is not in
the source tree): `current_stock` comes from the stock repository when
present (`stock_source = "uploaded"`), else from the sales-velocity
estimate (`stock_source = "estimated"`);
`order_qty = max(0, forecast_units − current_stock)`;
`buffer = order_qty × 0.15`; `total_dispatch = order_qty + buffer`;
`working_capital_impact = total_dispatch × unit_price`.  Documented
rounding policy: exact rational arithmetic, no rounding. -/
def planRow (sku : String) (forecast_units : ℚ) (stockRepo : String → Option ℚ)
    (estimatedStock : String → ℚ) (unit_price : ℚ) : DispatchRecommendation :=
  let stockInfo : ℚ × String :=
    match stockRepo sku with
    | some q => (q, "uploaded")
    | none => (estimatedStock sku, "estimated")
  let order_qty := max 0 (forecast_units - stockInfo.1)
  let buffer := order_qty * BUFFER_STOCK_PERCENT
  let total := order_qty + buffer
  { sku_code := sku
    forecast_units := forecast_units
    current_stock := stockInfo.1
    stock_source := stockInfo.2
    recommended_quantity := order_qty
    buffer_stock := buffer
    total_dispatch := total
    working_capital_impact := total * unit_price }

/-- Modelled from the spec: `DispatchPlanner.plan` over a batch of SKUs,
each given as (sku_code, forecast_units, unit_price)
(backend `services/dispatch_planner.py` is not in the source tree). -/
def plan (skus : List (String × ℚ × ℚ)) (stockRepo : String → Option ℚ)
    (estimatedStock : String → ℚ) : List DispatchRecommendation :=
  skus.map (fun s => planRow s.1 s.2.1 stockRepo estimatedStock s.2.2)

end DispatchPlanner

/-- The result record of the what-if simulator, per the spec. -/
structure WhatIfResult where
  baseline_units : ℚ
  adjusted_units : ℚ
  delta_units : ℚ
  delta_pct : ℚ
  notes : String
deriving DecidableEq, Repr

namespace WhatIfSimulator

/-- Modelled from the spec: `WhatIfSimulator.simulate` (backend
`services/forecasting.py` is not in the source tree).  The scenario
transform is abstracted as the pair of baseline and adjusted forecast
inputs over the fixed horizon; `delta_pct = (adjusted − baseline) /
baseline × 100`, reported as 0 with an explanatory note when the
baseline is 0. -/
def simulate (baselineInputs adjustedInputs : ForecastInputs) (horizon_days : ℕ)
    (scenarioNote : String) : WhatIfResult :=
  let baseline := totalForecast baselineInputs horizon_days
  let adjusted := totalForecast adjustedInputs horizon_days
  if baseline = 0 then
    { baseline_units := baseline
      adjusted_units := adjusted
      delta_units := adjusted - baseline
      delta_pct := 0
      notes := "Baseline forecast is zero; delta percentage undefined, reported as 0." }
  else
    { baseline_units := baseline
      adjusted_units := adjusted
      delta_units := adjusted - baseline
      delta_pct := (adjusted - baseline) / baseline * 100
      notes := scenarioNote }

end WhatIfSimulator

/-- The component state of UploadSection that handleFile touches,
from frontend/src/components/UploadData.jsx. -/
structure UploadSectionState where
  file : Option String
  status : String
  result : Option String
  errorMsg : String
  progress : ℕ
deriving DecidableEq, Repr

/-- The accepted upload extensions, from UploadData.jsx line 48. -/
def acceptedExtensions : List String := ["csv", "xlsx", "xls"]

/-- Splitting a character list at every dot, as `name.split('.')` does in
UploadData.jsx line 47; the result is always non-empty. -/
def splitOnDot : List Char → List (List Char)
  | [] => [[]]
  | c :: rest =>
    match splitOnDot rest with
    | [] => [[c]]
    | s :: ss => if c = '.' then [] :: s :: ss else (c :: s) :: ss

/-- Embeds `f.name.split('.').pop().toLowerCase()` from UploadData.jsx
line 47: the final dot-separated component of the name, lowercased. -/
def extOf (name : String) : String :=
  String.mk (((splitOnDot name.data).getLast?.getD []).map Char.toLower)

/-- Embeds `handleFile` from UploadData.jsx lines 45-54: a null file is
ignored; a file with an unaccepted extension sets an error status and
message and returns; an accepted file is stored and the section state is
reset. -/
def handleFile (f : Option String) (s : UploadSectionState) : UploadSectionState :=
  match f with
  | none => s
  | some name =>
    if ¬ acceptedExtensions.contains (extOf name) then
      { s with status := "error"
               errorMsg := "Only .csv, .xlsx, or .xls files are accepted." }
    else
      { file := some name
        status := "idle"
        result := none
        errorMsg := ""
        progress := 0 }

/-- One entry of the YoY API payload as SalesAnalytics.jsx consumes it:
year, calendar month (1-12), and the units figure, `none` standing for a
null or missing field. -/
structure YoYEntry where
  year : ℤ
  month : ℕ
  units : Option ℤ
deriving DecidableEq, Repr

/-- One row of the pivoted chart data: the month label and, for each
year key, the plotted value. -/
structure PivotRow where
  month : String
  values : List (ℤ × ℤ)
deriving DecidableEq, Repr

/-- The twelve month labels of SalesAnalytics.jsx line 55. -/
def monthNames : List String :=
  ["Jan","Feb","Mar","Apr","May","Jun","Jul","Aug","Sep","Oct","Nov","Dec"]

/-- Embeds `const YEARS = [...new Set(yoyData.map(d => d.year))].sort()`
from SalesAnalytics.jsx line 51: the distinct years, sorted. -/
def yoyYears (yoyData : List YoYEntry) : List ℤ :=
  ((yoyData.map (fun d => d.year)).dedup).insertionSort (· ≤ ·)

/-- Embeds `yoyData.find(d => d.year === y && d.month === i + 1)` followed
by `entry?.units || 0` from SalesAnalytics.jsx lines 59-60: the units of
the first matching entry, 0 when there is none or its units field is
falsy. -/
def pivotValue (yoyData : List YoYEntry) (y : ℤ) (m : ℕ) : ℤ :=
  match yoyData.find? (fun d => d.year == y && d.month == m) with
  | some e => e.units.getD 0
  | none => 0

/-- Embeds `yoyPivot` from SalesAnalytics.jsx lines 54-64: one row per
month Jan..Dec, carrying for every distinct year of the data the units of
the matching entry (0 when absent or falsy). -/
def yoyPivot (yoyData : List YoYEntry) : List PivotRow :=
  (List.range 12).map (fun i =>
    { month := monthNames.getD i ""
      values := (yoyYears yoyData).map (fun y => (y, pivotValue yoyData y (i+1))) })

/-- Claim C2: `RiskScorer.score` assigns `risk_type` as a pure deterministic
function of the raw probabilities: understock exactly when
`stockout_prob > 0.30`, otherwise overstock exactly when
`overstock_prob > 0.35`, otherwise neutral; the classification does not
depend on the festival-risk input (which only moves the composite score),
and two inputs with equal composite scores can differ in class, so the
class is computed from the raw probabilities, never from the score. -/
theorem riskScorer_classification_from_raw_probs
    (forecast stock festRisk festRisk' : ℚ) :
    ((RiskScorer.score forecast stock festRisk).risk_type
        = (RiskScorer.score forecast stock festRisk').risk_type)
    ∧ ((RiskScorer.score forecast stock festRisk).stockout_prob > 3/10 →
        (RiskScorer.score forecast stock festRisk).risk_type = .understock)
    ∧ ((RiskScorer.score forecast stock festRisk).stockout_prob ≤ 3/10 →
        (RiskScorer.score forecast stock festRisk).overstock_prob > 7/20 →
        (RiskScorer.score forecast stock festRisk).risk_type = .overstock)
    ∧ ((RiskScorer.score forecast stock festRisk).stockout_prob ≤ 3/10 →
        (RiskScorer.score forecast stock festRisk).overstock_prob ≤ 7/20 →
        (RiskScorer.score forecast stock festRisk).risk_type = .neutral)
    ∧ ((RiskScorer.score 10 6 0).risk_score = (RiskScorer.score 10 7 (7/10)).risk_score
        ∧ (RiskScorer.score 10 6 0).risk_type ≠ (RiskScorer.score 10 7 (7/10)).risk_type) := by
  refine ⟨rfl, ?_, ?_, ?_, ?_, ?_⟩
  · intro h
    simp only [RiskScorer.score, riskTypeOf]
    simp only [RiskScorer.score] at h
    rw [if_pos h]
  · intro h1 h2
    simp only [RiskScorer.score, riskTypeOf]
    simp only [RiskScorer.score] at h1 h2
    rw [if_neg (not_lt.mpr h1), if_pos h2]
  · intro h1 h2
    simp only [RiskScorer.score, riskTypeOf]
    simp only [RiskScorer.score] at h1 h2
    rw [if_neg (not_lt.mpr h1), if_neg (not_lt.mpr h2)]
  · simp only [RiskScorer.score, stockoutProb, overstockProb, riskScore, clamp01]
    norm_num
  · simp only [RiskScorer.score, stockoutProb, overstockProb, riskTypeOf, clamp01]
    norm_num
    decide

/-- Witness for C2 at concrete inputs: forecast 10, stock 6 is classified
understock via the threshold rule, independently of the festival risk. -/
theorem riskScorer_classification_from_raw_probs_witness :
    (RiskScorer.score 10 6 0).risk_type = (RiskScorer.score 10 6 1).risk_type
    ∧ (RiskScorer.score 10 6 0).risk_type = .understock := by
  have h := riskScorer_classification_from_raw_probs 10 6 0 1
  refine ⟨h.1, h.2.1 ?_⟩
  simp only [RiskScorer.score, stockoutProb, overstockProb, clamp01]
  norm_num

/-- Counterexample to C4: there are no probabilities in `[0,1]` (with
festival risk in `[0,1]`) for which the weighted sum exceeds 1; its
maximum is `0.7·sp + 0.1·fr ≤ 0.8`. -/
theorem riskScore_cannot_exceed_one :
    ¬ ∃ sp op fr : ℚ, 0 ≤ sp ∧ sp ≤ 1 ∧ 0 ≤ op ∧ op ≤ 1 ∧ 0 ≤ fr ∧ fr ≤ 1
      ∧ 1 < riskScore sp op fr := by
  rintro ⟨sp, op, fr, h1, h2, h3, h4, h5, h6, h7⟩
  simp only [riskScore] at h7
  linarith

/-- Claim C4 (amended): for probabilities in `[0,1]` the weighted sum
`risk_score` is bounded above by `0.8` (hence never exceeds 1), but it can
go negative (at `stockout_prob = 0`, `overstock_prob = 1`,
`festival_proximity_risk = 0` it equals `−0.2`), so the sum is not bounded
to `[0,1]`. -/
theorem riskScore_bounded_above_but_can_be_negative :
    (∀ sp op fr : ℚ, 0 ≤ sp → sp ≤ 1 → 0 ≤ op → op ≤ 1 → 0 ≤ fr → fr ≤ 1 →
        riskScore sp op fr ≤ 4/5)
    ∧ riskScore 0 1 0 < 0 := by
  constructor
  · intro sp op fr h1 h2 h3 h4 h5 h6
    simp only [riskScore]
    linarith
  · simp only [riskScore]
    norm_num

/-- Witness for the amended C4 at concrete inputs: the bound holds at
`(1, 0, 1)` where the sum attains `0.8`, and the sum is negative at
`(0, 1, 0)`. -/
theorem riskScore_bounded_above_but_can_be_negative_witness :
    riskScore 1 0 1 ≤ 4/5 ∧ riskScore 0 1 0 < 0 :=
  ⟨riskScore_bounded_above_but_can_be_negative.1 1 0 1 (by norm_num) (by norm_num)
      (by norm_num) (by norm_num) (by norm_num) (by norm_num),
    riskScore_bounded_above_but_can_be_negative.2⟩

/-- Counterexample to C5: at `forecast_over_lead_time = 1/5 > 0` and
`current_stock = 2/5 = 2 × forecast`, the divisor `max(current_stock, 1)`
is 1, so `overstock_prob = 1/5 ≠ 1/2` and the SKU is classified neutral,
not overstock. -/
theorem riskScorer_double_stock_small_forecast :
    (0 : ℚ) < 1/5 ∧ ((2:ℚ)/5) = 2 * (1/5)
    ∧ (RiskScorer.score (1/5) (2/5) 0).overstock_prob = 1/5
    ∧ (RiskScorer.score (1/5) (2/5) 0).risk_type = .neutral := by
  refine ⟨by norm_num, by norm_num, ?_, ?_⟩
  · simp only [RiskScorer.score, overstockProb, clamp01]
    norm_num
  · simp only [RiskScorer.score, overstockProb, stockoutProb, riskTypeOf, clamp01]
    norm_num

/-- Claim C5 (amended): for any SKU whose forecast over the lead time is at
least `1/2` (so that `current_stock = 2 × forecast ≥ 1`, making
`max(current_stock, 1) = current_stock`) and whose current stock equals
twice that forecast, `RiskScorer.score` returns `overstock_prob = 1/2` and
classifies the SKU as overstock, for any festival risk input. -/
theorem riskScorer_double_stock_overstock (f fr : ℚ) (hf : 1/2 ≤ f) :
    (RiskScorer.score f (2*f) fr).overstock_prob = 1/2
    ∧ (RiskScorer.score f (2*f) fr).risk_type = .overstock := by
  have hfpos : 0 < f := by linarith
  have hf0 : f ≠ 0 := ne_of_gt hfpos
  have hop : overstockProb f (2*f) = 1/2 := by
    have hmax : max (2*f) 1 = 2*f := max_eq_left (by linarith)
    have hdiv : (2*f - f) / (2*f) = 1/2 := by
      rw [div_eq_iff (by positivity)]
      ring
    simp only [overstockProb, hmax, hdiv, clamp01]
    norm_num
  have hsp : stockoutProb f (2*f) = 0 := by
    have hdiv : (f - 2*f) / f = -1 := by
      rw [div_eq_iff hf0]
      ring
    simp only [stockoutProb, if_neg hf0, hdiv, clamp01]
    norm_num
  constructor
  · simp only [RiskScorer.score, hop]
  · simp only [RiskScorer.score, hsp, hop, riskTypeOf]
    norm_num

/-- Witness for the amended C5 at `forecast = 1`, `stock = 2`. -/
theorem riskScorer_double_stock_overstock_witness :
    (RiskScorer.score 1 (2*1) 0).overstock_prob = 1/2
    ∧ (RiskScorer.score 1 (2*1) 0).risk_type = .overstock :=
  riskScorer_double_stock_overstock 1 0 (by norm_num)

/-- Claim C1: in the series returned by `ForecastEngine.forecast`, for any
SKU inputs (whose base average, seasonal factors, festival multipliers and
trend factor are nonnegative, as they are when built from sales history)
and any horizon, every ForecastPoint satisfies
`confidence_lower ≤ predicted_quantity ≤ confidence_upper`, the bounds
being `predicted × (1 − ci_width_pct)` and `predicted × (1 + ci_width_pct)`
with `ci_width_pct` given by the documented width formula. -/
theorem forecast_bounds (inp : ForecastInputs) (horizon_days : ℕ)
    (hbase : 0 ≤ inp.base_daily_avg)
    (hseas : ∀ m, 0 ≤ inp.seasonal_profile m)
    (hfest : ∀ d, 0 ≤ inp.festival_multiplier d)
    (hyoy : 0 ≤ inp.yoy_trend_factor) :
    ∀ pt ∈ ForecastEngine.forecast inp horizon_days,
      (pt.confidence_lower ≤ pt.predicted_quantity
        ∧ pt.predicted_quantity ≤ pt.confidence_upper)
      ∧ pt.confidence_lower = pt.predicted_quantity * (1 - pt.ci_width_pct)
      ∧ pt.confidence_upper = pt.predicted_quantity * (1 + pt.ci_width_pct)
      ∧ pt.ci_width_pct = ciWidthPct pt.horizon_fraction := by
  intro pt hpt
  simp only [ForecastEngine.forecast, List.mem_map, List.mem_range] at hpt
  obtain ⟨i, hi, rfl⟩ := hpt
  have hp : 0 ≤ predictedAt inp (i+1) :=
    mul_nonneg (mul_nonneg (mul_nonneg hbase (hseas _)) (hfest _)) hyoy
  have hw : 0 ≤ ciWidthPct (((i+1 : ℕ) : ℚ) / (horizon_days : ℚ)) := by
    simp only [ciWidthPct]
    positivity
  have hpw : 0 ≤ predictedAt inp (i+1) * ciWidthPct (((i+1 : ℕ) : ℚ) / (horizon_days : ℚ)) :=
    mul_nonneg hp hw
  simp only [ForecastEngine.forecastPoint]
  refine ⟨⟨by nlinarith, by nlinarith⟩, ?_, ?_, ?_⟩ <;> simp

/-- Witness for C1: the bounds hold at the first point of a 2-day
forecast for the flat-demand example SKU. -/
theorem forecast_bounds_witness :
    (ForecastEngine.forecastPoint exampleInputs 2 1).confidence_lower
      ≤ (ForecastEngine.forecastPoint exampleInputs 2 1).predicted_quantity
    ∧ (ForecastEngine.forecastPoint exampleInputs 2 1).predicted_quantity
      ≤ (ForecastEngine.forecastPoint exampleInputs 2 1).confidence_upper := by
  have hmem : ForecastEngine.forecastPoint exampleInputs 2 1
      ∈ ForecastEngine.forecast exampleInputs 2 := by
    simp only [ForecastEngine.forecast]
    exact List.mem_map.mpr ⟨0, by simp, rfl⟩
  have h := forecast_bounds exampleInputs 2 (by norm_num [exampleInputs])
    (fun m => by norm_num [exampleInputs]) (fun d => by norm_num [exampleInputs])
    (by norm_num [exampleInputs]) _ hmem
  exact h.1

/-- Claim C8: within one `ForecastEngine.forecast` call, the confidence
width is monotone non-decreasing in the horizon fraction: of any two
points of the series, the one with the larger horizon fraction has a
width at least as large; in particular the width formula at
horizon_fraction 1.0 is at least its value at 0.0. -/
theorem ciWidth_monotone (inp : ForecastInputs) (horizon_days : ℕ) :
    (∀ p1 p2, p1 ∈ ForecastEngine.forecast inp horizon_days →
        p2 ∈ ForecastEngine.forecast inp horizon_days →
        p1.horizon_fraction ≤ p2.horizon_fraction →
        p1.ci_width_pct ≤ p2.ci_width_pct)
    ∧ ciWidthPct 0 ≤ ciWidthPct 1 := by
  constructor
  · intro p1 p2 h1 h2 hle
    simp only [ForecastEngine.forecast, List.mem_map, List.mem_range] at h1 h2
    obtain ⟨i, hi, rfl⟩ := h1
    obtain ⟨j, hj, rfl⟩ := h2
    simp only [ForecastEngine.forecastPoint, ciWidthPct] at hle ⊢
    linarith
  · simp only [ciWidthPct]
    norm_num

/-- Witness for C8: in the 2-day forecast of the example SKU, the day-2
point has horizon fraction 1 ≥ 1/2 of the day-1 point, and its width is
at least as large. -/
theorem ciWidth_monotone_witness :
    (ForecastEngine.forecastPoint exampleInputs 2 1).ci_width_pct
      ≤ (ForecastEngine.forecastPoint exampleInputs 2 2).ci_width_pct := by
  have hmem1 : ForecastEngine.forecastPoint exampleInputs 2 1
      ∈ ForecastEngine.forecast exampleInputs 2 := by
    simp only [ForecastEngine.forecast]
    exact List.mem_map.mpr ⟨0, by simp, rfl⟩
  have hmem2 : ForecastEngine.forecastPoint exampleInputs 2 2
      ∈ ForecastEngine.forecast exampleInputs 2 := by
    simp only [ForecastEngine.forecast]
    exact List.mem_map.mpr ⟨1, by simp, rfl⟩
  exact (ciWidth_monotone exampleInputs 2).1 _ _ hmem1 hmem2
    (by norm_num [ForecastEngine.forecastPoint])

/-- Claim C3: every DispatchRecommendation row produced by
`DispatchPlanner.plan` satisfies
`total_dispatch = recommended_quantity + buffer_stock`,
`buffer_stock = recommended_quantity × 0.15` (documented rounding policy:
exact arithmetic), and
`recommended_quantity = max(0, forecast_units − current_stock)`. -/
theorem dispatch_row_equations (skus : List (String × ℚ × ℚ))
    (stockRepo : String → Option ℚ) (estimatedStock : String → ℚ) :
    ∀ r ∈ DispatchPlanner.plan skus stockRepo estimatedStock,
      r.total_dispatch = r.recommended_quantity + r.buffer_stock
      ∧ r.buffer_stock = r.recommended_quantity * BUFFER_STOCK_PERCENT
      ∧ r.recommended_quantity = max 0 (r.forecast_units - r.current_stock) := by
  intro r hr
  simp only [DispatchPlanner.plan, List.mem_map] at hr
  obtain ⟨s, hs, rfl⟩ := hr
  simp only [DispatchPlanner.planRow]
  refine ⟨?_, ?_, ?_⟩ <;> simp

/-- Witness for C3: the row equations at a single-SKU plan with forecast
100, estimated stock 30, unit price 2. -/
theorem dispatch_row_equations_witness :
    (DispatchPlanner.planRow "SKU1" 100 (fun _ => none) (fun _ => 30) 2).total_dispatch
        = (DispatchPlanner.planRow "SKU1" 100 (fun _ => none) (fun _ => 30) 2).recommended_quantity
          + (DispatchPlanner.planRow "SKU1" 100 (fun _ => none) (fun _ => 30) 2).buffer_stock
    ∧ (DispatchPlanner.planRow "SKU1" 100 (fun _ => none) (fun _ => 30) 2).buffer_stock
        = (DispatchPlanner.planRow "SKU1" 100 (fun _ => none) (fun _ => 30) 2).recommended_quantity
          * BUFFER_STOCK_PERCENT := by
  have hmem : DispatchPlanner.planRow "SKU1" 100 (fun _ => none) (fun _ => 30) 2
      ∈ DispatchPlanner.plan [("SKU1", 100, 2)] (fun _ => none) (fun _ => 30) := by
    simp only [DispatchPlanner.plan]
    exact List.mem_map.mpr ⟨("SKU1", 100, 2), by simp, rfl⟩
  have h := dispatch_row_equations [("SKU1", 100, 2)] (fun _ => none) (fun _ => 30) _ hmem
  exact ⟨h.1, h.2.1⟩

/-- Claim C7: in the row `DispatchPlanner` produces for a SKU, when the
stock repository reports the stock as absent, the row carries
`stock_source = "estimated"` and its `current_stock` is the sales-velocity
estimate (never a silent zero without the flag); when a stock entry is
present, the flag is `"uploaded"` and `current_stock` is the reported
quantity. -/
theorem dispatch_stock_source (sku : String) (forecast_units unit_price : ℚ)
    (stockRepo : String → Option ℚ) (estimatedStock : String → ℚ) :
    (stockRepo sku = none →
      (DispatchPlanner.planRow sku forecast_units stockRepo estimatedStock unit_price).stock_source
          = "estimated"
      ∧ (DispatchPlanner.planRow sku forecast_units stockRepo estimatedStock unit_price).current_stock
          = estimatedStock sku)
    ∧ (∀ q, stockRepo sku = some q →
      (DispatchPlanner.planRow sku forecast_units stockRepo estimatedStock unit_price).stock_source
          = "uploaded"
      ∧ (DispatchPlanner.planRow sku forecast_units stockRepo estimatedStock unit_price).current_stock
          = q) := by
  constructor
  · intro h
    simp [DispatchPlanner.planRow, h]
  · intro q h
    simp [DispatchPlanner.planRow, h]

/-- Witness for C7: a repository holding only SKU "A" at quantity 5 yields
an uploaded flag for "A" and an estimated flag (with the velocity
estimate 30) for the absent SKU "B". -/
theorem dispatch_stock_source_witness :
    ((DispatchPlanner.planRow "B" 100 (fun s => if s = "A" then some 5 else none) (fun _ => 30) 2).stock_source
        = "estimated"
      ∧ (DispatchPlanner.planRow "B" 100 (fun s => if s = "A" then some 5 else none) (fun _ => 30) 2).current_stock
        = 30)
    ∧ ((DispatchPlanner.planRow "A" 100 (fun s => if s = "A" then some 5 else none) (fun _ => 30) 2).stock_source
        = "uploaded"
      ∧ (DispatchPlanner.planRow "A" 100 (fun s => if s = "A" then some 5 else none) (fun _ => 30) 2).current_stock
        = 5) := by
  have hB := (dispatch_stock_source "B" 100 2 (fun s => if s = "A" then some 5 else none)
    (fun _ => 30)).1 (by simp)
  have hA := (dispatch_stock_source "A" 100 2 (fun s => if s = "A" then some 5 else none)
    (fun _ => 30)).2 5 (by simp)
  exact ⟨hB, hA⟩

/-- Claim C6: `WhatIfSimulator.simulate` reports
`delta_pct = (adjusted_units − baseline_units) / baseline_units × 100`
exactly whenever the baseline is non-zero, and when the baseline is 0 it
does not fail but reports `delta_pct = 0` together with a non-empty
note. -/
theorem whatif_delta_pct (b a : ForecastInputs) (horizon_days : ℕ) (note : String) :
    ((WhatIfSimulator.simulate b a horizon_days note).baseline_units ≠ 0 →
      (WhatIfSimulator.simulate b a horizon_days note).delta_pct
        = ((WhatIfSimulator.simulate b a horizon_days note).adjusted_units
            - (WhatIfSimulator.simulate b a horizon_days note).baseline_units)
          / (WhatIfSimulator.simulate b a horizon_days note).baseline_units * 100)
    ∧ ((WhatIfSimulator.simulate b a horizon_days note).baseline_units = 0 →
      (WhatIfSimulator.simulate b a horizon_days note).delta_pct = 0
      ∧ (WhatIfSimulator.simulate b a horizon_days note).notes ≠ "") := by
  have hbase : (WhatIfSimulator.simulate b a horizon_days note).baseline_units
      = totalForecast b horizon_days := by
    simp only [WhatIfSimulator.simulate]
    by_cases hb : totalForecast b horizon_days = 0 <;> simp [hb]
  by_cases hb : totalForecast b horizon_days = 0
  · refine ⟨?_, ?_⟩
    · intro h
      exact absurd (hbase.trans hb) h
    · intro _
      constructor
      · simp only [WhatIfSimulator.simulate, if_pos hb]
      · simp only [WhatIfSimulator.simulate, if_pos hb]
        decide
  · refine ⟨?_, ?_⟩
    · intro _
      simp only [WhatIfSimulator.simulate, if_neg hb]
    · intro h
      exact absurd (hbase.symm.trans h) hb

/-- Witness for C6: the flat-demand SKU gives a non-zero 2-day baseline
of 20 with the exact delta formula, and the zero-history SKU gives a zero
baseline reported as delta 0 with a note. -/
theorem whatif_delta_pct_witness :
    ((WhatIfSimulator.simulate exampleInputs zeroInputs 2 "competitor shock").delta_pct
      = ((WhatIfSimulator.simulate exampleInputs zeroInputs 2 "competitor shock").adjusted_units
          - (WhatIfSimulator.simulate exampleInputs zeroInputs 2 "competitor shock").baseline_units)
        / (WhatIfSimulator.simulate exampleInputs zeroInputs 2 "competitor shock").baseline_units * 100)
    ∧ ((WhatIfSimulator.simulate zeroInputs exampleInputs 2 "diwali shift").delta_pct = 0
      ∧ (WhatIfSimulator.simulate zeroInputs exampleInputs 2 "diwali shift").notes ≠ "") := by
  have hb1 : (WhatIfSimulator.simulate exampleInputs zeroInputs 2 "competitor shock").baseline_units ≠ 0 := by
    norm_num [WhatIfSimulator.simulate, totalForecast, ForecastEngine.forecast,
      ForecastEngine.forecastPoint, predictedAt, exampleInputs, zeroInputs, List.range_succ]
  have hb2 : (WhatIfSimulator.simulate zeroInputs exampleInputs 2 "diwali shift").baseline_units = 0 := by
    norm_num [WhatIfSimulator.simulate, totalForecast, ForecastEngine.forecast,
      ForecastEngine.forecastPoint, predictedAt, exampleInputs, zeroInputs, List.range_succ]
  exact ⟨(whatif_delta_pct exampleInputs zeroInputs 2 "competitor shock").1 hb1,
    (whatif_delta_pct zeroInputs exampleInputs 2 "diwali shift").2 hb2⟩

/-- Claim C9: in the upload section's `handleFile`, a file whose final
dot-separated extension, lowercased, is not csv, xlsx or xls sets the
status to error with the message
`Only .csv, .xlsx, or .xls files are accepted.` and leaves the previously
selected file, the result and the progress unchanged; an accepted
extension stores the file and resets status to idle, result to none,
the error message to empty, and progress to 0. -/
theorem handleFile_extension_gate (name : String) (s : UploadSectionState) :
    (¬ acceptedExtensions.contains (extOf name) = true →
      (handleFile (some name) s).status = "error"
      ∧ (handleFile (some name) s).errorMsg = "Only .csv, .xlsx, or .xls files are accepted."
      ∧ (handleFile (some name) s).file = s.file
      ∧ (handleFile (some name) s).result = s.result
      ∧ (handleFile (some name) s).progress = s.progress)
    ∧ (acceptedExtensions.contains (extOf name) = true →
      handleFile (some name) s
        = { file := some name
            status := "idle"
            result := none
            errorMsg := ""
            progress := 0 }) := by
  constructor
  · intro h
    simp only [handleFile]
    rw [if_pos h]
    exact ⟨rfl, rfl, rfl, rfl, rfl⟩
  · intro h
    simp only [handleFile]
    rw [if_neg (not_not_intro h)]

/-- Witness for C9: `report.pdf` is rejected, keeping the previously
selected file; `Sales.XLSX` is accepted (extension lowercased). -/
theorem handleFile_extension_gate_witness :
    ((handleFile (some "report.pdf") ⟨some "old.csv", "idle", none, "", 0⟩).status = "error"
      ∧ (handleFile (some "report.pdf") ⟨some "old.csv", "idle", none, "", 0⟩).file = some "old.csv")
    ∧ handleFile (some "Sales.XLSX") ⟨some "old.csv", "idle", none, "", 0⟩
        = ⟨some "Sales.XLSX", "idle", none, "", 0⟩ := by
  have h1 := handleFile_extension_gate "report.pdf" ⟨some "old.csv", "idle", none, "", 0⟩
  have h2 := handleFile_extension_gate "Sales.XLSX" ⟨some "old.csv", "idle", none, "", 0⟩
  have e1 : ¬ acceptedExtensions.contains (extOf "report.pdf") = true := by decide
  have e2 : acceptedExtensions.contains (extOf "Sales.XLSX") = true := by decide
  exact ⟨⟨(h1.1 e1).1, (h1.1 e1).2.2.1⟩, h2.2 e2⟩

/-- Looking up a key in an association list built by pairing each list
element with a function of itself returns that function value. -/
theorem lookup_map_pair (l : List ℤ) (v : ℤ → ℤ) (y : ℤ) (hy : y ∈ l) :
    List.lookup y (l.map (fun z => (z, v z))) = some (v y) := by
  induction l with
  | nil => cases hy
  | cons a l ih =>
    rcases List.mem_cons.mp hy with hya | hmem
    · subst hya
      simp [List.lookup]
    · by_cases h : a = y
      · subst h
        simp [List.lookup]
      · simp only [List.map_cons, List.lookup]
        rw [show (y == a) = false from beq_eq_false_iff_ne.mpr (Ne.symm h)]
        exact ih hmem

/-- `find?` returns the designated element when it is the unique match. -/
theorem find?_eq_of_unique (l : List YoYEntry) (p : YoYEntry → Bool) (e : YoYEntry)
    (he : e ∈ l) (hpe : p e = true) (huniq : ∀ x ∈ l, p x = true → x = e) :
    l.find? p = some e := by
  induction l with
  | nil => cases he
  | cons a l ih =>
    by_cases hpa : p a = true
    · have ha : a = e := huniq a (List.mem_cons_self a l) hpa
      subst ha
      exact List.find?_cons_of_pos l hpa
    · rcases List.mem_cons.mp he with hea | hmem
      · subst hea
        exact absurd hpe hpa
      · rw [List.find?_cons_of_neg l (by simpa using hpa)]
        exact ih hmem (fun x hx hpx => huniq x (List.mem_cons_of_mem a hx) hpx)

/-- Claim C10: for every yoyData array, `yoyPivot` produces exactly 12
rows whose month labels are Jan..Dec in calendar order; every row carries
a value for every year present in the data (the distinct years of the
data being exactly the keys); that value is the units of the unique
matching (year, month) entry, and 0 when the entry's units field is
null/falsy or no entry matches. -/
theorem yoyPivot_shape_and_values (yoyData : List YoYEntry) :
    ((yoyPivot yoyData).length = 12)
    ∧ ((yoyPivot yoyData).map (fun r => r.month) = monthNames)
    ∧ (∀ y, y ∈ yoyYears yoyData ↔ ∃ e ∈ yoyData, e.year = y)
    ∧ (∀ i y, i < 12 → y ∈ yoyYears yoyData →
        List.lookup y (((yoyPivot yoyData).getD i ⟨"", []⟩).values)
          = some (pivotValue yoyData y (i+1)))
    ∧ (∀ y m e, e ∈ yoyData → e.year = y → e.month = m →
        (∀ e2, e2 ∈ yoyData → e2.year = y → e2.month = m → e2 = e) →
        (∀ u, e.units = some u → pivotValue yoyData y m = u)
        ∧ (e.units = none → pivotValue yoyData y m = 0))
    ∧ (∀ y m, (∀ e ∈ yoyData, ¬(e.year = y ∧ e.month = m)) →
        pivotValue yoyData y m = 0) := by
  refine ⟨by simp [yoyPivot], rfl, ?_, ?_, ?_, ?_⟩
  · intro y
    have hmem : y ∈ yoyYears yoyData ↔ y ∈ yoyData.map (fun d => d.year) := by
      unfold yoyYears
      rw [(List.perm_insertionSort _ _).mem_iff, List.mem_dedup]
    rw [hmem, List.mem_map]
  · intro i y hi hy
    have hlen : i < ((List.range 12).map (fun i =>
        (⟨monthNames.getD i "",
          (yoyYears yoyData).map (fun y => (y, pivotValue yoyData y (i+1)))⟩ : PivotRow))).length := by
      simpa using hi
    have hrow : (yoyPivot yoyData).getD i ⟨"", []⟩
        = ⟨monthNames.getD i "",
            (yoyYears yoyData).map (fun z => (z, pivotValue yoyData z (i+1)))⟩ := by
      simp only [yoyPivot]
      rw [List.getD_eq_getElem?_getD, List.getElem?_eq_getElem hlen]
      simp
    rw [hrow]
    exact lookup_map_pair _ _ _ hy
  · intro y m e he hey hem huniq
    have hfind : yoyData.find? (fun d => d.year == y && d.month == m) = some e := by
      apply find?_eq_of_unique yoyData _ e he
      · simp [hey, hem]
      · intro x hx hpx
        simp only [Bool.and_eq_true, beq_iff_eq] at hpx
        exact huniq x hx hpx.1 hpx.2
    constructor
    · intro u hu
      simp [pivotValue, hfind, hu]
    · intro hu
      simp [pivotValue, hfind, hu]
  · intro y m hno
    have hfind : yoyData.find? (fun d => d.year == y && d.month == m) = none := by
      rw [List.find?_eq_none]
      intro x hx hpx
      simp only [Bool.and_eq_true, beq_iff_eq] at hpx
      exact hno x hx ⟨hpx.1, hpx.2⟩
    simp [pivotValue, hfind]

/-- Witness for C10 on a concrete payload with years 2023 and 2024: the
January row carries the unique 2023 entry's units 5; the 2024 entry's
null units pivot to 0; a (year, month) with no entry pivots to 0. -/
theorem yoyPivot_shape_and_values_witness :
    List.lookup 2023 (((yoyPivot [⟨2023, 1, some 5⟩, ⟨2024, 1, none⟩]).getD 0 ⟨"", []⟩).values)
      = some (pivotValue [⟨2023, 1, some 5⟩, ⟨2024, 1, none⟩] 2023 1)
    ∧ pivotValue [⟨2023, 1, some 5⟩, ⟨2024, 1, none⟩] 2023 1 = 5
    ∧ pivotValue [⟨2023, 1, some 5⟩, ⟨2024, 1, none⟩] 2024 1 = 0
    ∧ pivotValue [⟨2023, 1, some 5⟩, ⟨2024, 1, none⟩] 2022 3 = 0 := by
  obtain ⟨hlen, hmonths, hyears, hlook, hval, hnone⟩ :=
    yoyPivot_shape_and_values [⟨2023, 1, some 5⟩, ⟨2024, 1, none⟩]
  refine ⟨hlook 0 2023 (by norm_num) (by decide), ?_, ?_, ?_⟩
  · exact (hval 2023 1 ⟨2023, 1, some 5⟩ (by decide) rfl rfl (by decide)).1 5 rfl
  · exact (hval 2024 1 ⟨2024, 1, none⟩ (by decide) rfl rfl (by decide)).2 rfl
  · exact hnone 2022 3 (by decide)
